import Mathlib

/-!
Verification development for `toponymy/llm_wrappers.py`.

The module wraps four LLM backends (llama_cpp, Cohere, Anthropic, OpenAI)
behind one interface with two operations: `generate_topic_name` and
`generate_topic_cluster_names`.  Each wrapper sends one request to its
backend and parses the textual response.  We embed the parsing and
fallback logic shallowly:

* the external call (prompt, temperature, client, model) is abstracted
  into its observable outcome, an `LlmResponse`: either the call raised
  before the response text was bound (`transportError`), or a text was
  obtained whose `json.loads` outcome is carried directly
  (`text (Except.error e)` for undecodable text, `text (Except.ok j)`
  for text decoding to the JSON value `j`);
* Python exceptions are modelled with an `Except PyErr` monad;
* Python `dict`/`list`/`str` operations used by the source are modelled
  by small total functions (`Json.keys`, `Json.values`, `Json.getItem`,
  `Json.pyIter`, `listIndex0`, `pyLower`, ...), each faithful to CPython
  semantics at the call sites that occur in the source.
-/

/-- Python exceptions that can arise in the embedded code paths. -/
inductive PyErr where
  | typeError
  | attributeError
  | indexError
  | keyError
  | nameError
  | valueError
  | unauthorizedError
  | jsonDecodeError
deriving DecidableEq, Repr

/-- A decoded JSON value, the result of a successful `json.loads`.
Numeric payloads are inert in every embedded code path, so they are
carried as rationals. -/
inductive Json where
  | null
  | bool (b : Bool)
  | num (q : Rat)
  | str (s : String)
  | arr (elems : List Json)
  | obj (fields : List (String × Json))

/-- Python `c.lower()` on a single character (ASCII case mapping, which is
all that the embedded comparisons exercise). -/
def pyLowerChar (c : Char) : Char :=
  if 65 ≤ c.toNat ∧ c.toNat ≤ 90 then Char.ofNat (c.toNat + 32) else c

/-- Python `c.upper()` on a single character (ASCII case mapping). -/
def pyUpperChar (c : Char) : Char :=
  if 97 ≤ c.toNat ∧ c.toNat ≤ 122 then Char.ofNat (c.toNat - 32) else c

/-- Python `s.lower()`. -/
def pyLower (s : String) : String := ⟨s.data.map pyLowerChar⟩

/-- Python `name_mapping.keys()` wrapped in `list(...)`: the key list of a
dict, `AttributeError` on any non-dict value. -/
def Json.keys : Json → Except PyErr (List String)
  | .obj fields => Except.ok (fields.map Prod.fst)
  | _ => Except.error PyErr.attributeError

/-- Python `name_mapping.values()` wrapped in `list(...)`: the value list
of a dict, `AttributeError` on any non-dict value. -/
def Json.values : Json → Except PyErr (List Json)
  | .obj fields => Except.ok (fields.map Prod.snd)
  | _ => Except.error PyErr.attributeError

/-- Python `xs[0]` on a list: `IndexError` when empty. -/
def listIndex0 {α : Type} : List α → Except PyErr α
  | [] => Except.error PyErr.indexError
  | x :: _ => Except.ok x

/-- Python `info[key]` on a decoded JSON value: dict lookup with
`KeyError` when the key is absent, `TypeError` when the value is not a
dict (list/str/int subscripts with a string key all raise `TypeError`). -/
def Json.getItem (j : Json) (key : String) : Except PyErr Json :=
  match j with
  | .obj fields =>
    match fields.find? (fun f => f.1 == key) with
    | some f => Except.ok f.2
    | none => Except.error PyErr.keyError
  | _ => Except.error PyErr.typeError

/-- Python iteration over a decoded JSON value, as consumed by
`zip(old_names, topic_name_info)`: a list yields its elements, a dict its
keys, a string its characters (as one-character strings); numbers,
booleans and `None` are not iterable (`TypeError`). -/
def Json.pyIter : Json → Except PyErr (List Json)
  | .arr elems => Except.ok elems
  | .obj fields => Except.ok (fields.map (fun f => Json.str f.1))
  | .str s => Except.ok (s.data.map (fun c => Json.str (String.singleton c)))
  | _ => Except.error PyErr.typeError

/-- Observable outcome of one backend call: either the call raised before
the response text was bound, or a response text was obtained and carries
its `json.loads` outcome. -/
inductive LlmResponse where
  | transportError
  | text (decoded : Except PyErr Json)

/-- The decoded item list a cluster-naming call iterates over, when the
response text decoded to an iterable JSON value; `none` otherwise. -/
def decodedItems : LlmResponse → Option (List Json)
  | .text (Except.ok j) =>
    match j.pyIter with
    | Except.ok items => some items
    | Except.error _ => none
  | _ => none

/-- Membership test for Python `string.whitespace`
(space, tab, newline, carriage return, vertical tab, form feed). -/
def isPyWhitespace (c : Char) : Bool :=
  c == ' ' || c == '\t' || c == '\n' || c == '\r' || c == '\x0b' || c == '\x0c'

/-- The characters of Python `string.whitespace`. -/
def pyWhitespaceChars : List Char := [' ', '\t', '\n', '\r', '\x0b', '\x0c']

/-- The characters of Python `string.punctuation`, by ASCII code
(codes 33-47, 58-64, 91-96 and 123-126). -/
def pyPunctuation : List Char :=
  ((List.range 128).filter fun n =>
      decide ((33 ≤ n ∧ n ≤ 47) ∨ (58 ≤ n ∧ n ≤ 64) ∨
        (91 ≤ n ∧ n ≤ 96) ∨ (123 ≤ n ∧ n ≤ 126))).map Char.ofNat

/-- Python `s.strip(chars)` on a character list: removes leading and
trailing characters that occur in `chars`. -/
def pyStripChars (chars : List Char) (cs : List Char) : List Char :=
  ((cs.dropWhile (fun c => chars.contains c)).reverse.dropWhile
    (fun c => chars.contains c)).reverse

/-- Python `s.capitalize()` on a character list: first character
uppercased, the rest lowercased. -/
def pyCapitalize : List Char → List Char
  | [] => []
  | c :: rest => pyUpperChar c :: rest.map pyLowerChar

/-- Helper for Python `s.split()`: accumulates the current word
(reversed) while scanning, emitting a word at each whitespace run. -/
def pySplitWsAux : List Char → List Char → List (List Char)
  | [], acc => if acc.isEmpty then [] else [acc.reverse]
  | c :: rest, acc =>
    if isPyWhitespace c then
      if acc.isEmpty then pySplitWsAux rest []
      else acc.reverse :: pySplitWsAux rest []
    else pySplitWsAux rest (c :: acc)

/-- Python `s.split()` (no argument): split on runs of whitespace,
dropping empty words. -/
def pySplitWs (cs : List Char) : List (List Char) := pySplitWsAux cs []

/-- Python `" ".join(words)`. -/
def pyJoinSpace : List (List Char) → List Char
  | [] => []
  | [w] => w
  | w :: ws => w ++ ' ' :: pyJoinSpace ws

/-- Python `string.capwords(s)`:
`" ".join(x.capitalize() for x in s.split())`. -/
def capwords (cs : List Char) : List Char :=
  pyJoinSpace ((pySplitWs cs).map pyCapitalize)

/-- A constructed llama_cpp wrapper, as recorded by `__init__`. -/
structure LlamaCppWrapper where
  model_path : String

/-- Embeds `LlamaCppWrapper.__init__`: raises `ValueError` when the model
path does not exist, otherwise records the path and hands it to the
external `llama_cpp.Llama` constructor.  The filesystem is abstracted
into the oracle `pathExists`. -/
def LlamaCppWrapper.init (pathExists : String → Bool) (model_path : String) :
    Except PyErr LlamaCppWrapper :=
  if pathExists model_path then Except.ok ⟨model_path⟩
  else Except.error PyErr.valueError

/-- Outcome of the external `self.llm.models.get(model)` call made by
`CohereWrapper.__init__`. -/
inductive CohereModelsGetResult where
  | found
  | notFound (available : List String)
  | unauthorized

/-- A constructed Cohere wrapper. -/
structure CohereWrapper where
  API_KEY : String
  model : String

/-- Embeds `CohereWrapper.__init__`: validates the model name with
`models.get`; a `NotFoundError` is converted to `ValueError`, while an
unauthorized-key error propagates uncaught (only `NotFoundError` is
handled).  The external call's outcome is the oracle `models_get`. -/
def CohereWrapper.init (models_get : String → CohereModelsGetResult)
    (API_KEY model : String) : Except PyErr CohereWrapper :=
  match models_get model with
  | .found => Except.ok ⟨API_KEY, model⟩
  | .notFound _ => Except.error PyErr.valueError
  | .unauthorized => Except.error PyErr.unauthorizedError

/-- A constructed Anthropic wrapper. -/
structure AnthropicWrapper where
  API_KEY : String
  model : String

/-- Embeds `AnthropicWrapper.__init__`: the body only stores the client
and model strings.  `anthropic.Anthropic(api_key=...)` performs no
network call and no validation (the repository's own
`test_llm_wrappers.py::TestAnthropicWrapper.test_init` constructs with
the dummy key `"API_KEY"` and asserts nothing is raised), so every input
returns normally. -/
def AnthropicWrapper.init (API_KEY model : String) :
    Except PyErr AnthropicWrapper :=
  Except.ok ⟨API_KEY, model⟩

/-- A constructed OpenAI wrapper. -/
structure OpenAIWrapper where
  API_KEY : String
  model : String

/-- Embeds `OpenAIWrapper.__init__`: stores the client and model strings;
`openai.OpenAI(api_key=...)` performs no network call and no validation
(the repository's `TestOpenAIWrapper.test_init` constructs with the dummy
key `"API_KEY"` and asserts nothing is raised). -/
def OpenAIWrapper.init (API_KEY model : String) : Except PyErr OpenAIWrapper :=
  Except.ok ⟨API_KEY, model⟩

/-- Embeds `LlamaCppWrapper.generate_topic_name` (source lines 62-70).
The backend call `self.llm(prompt, temperature=...)["choices"][0]["text"]`
is abstracted into its resulting raw text.  The body has no try/except:
it always cleans and returns that text.  Cleaning: when the text contains
a newline, leading newlines/spaces are stripped (`lstrip("\x5cn ")`) and
only the text before the first remaining newline is kept
(`split("\x5cn")[0]`); the result is stripped of surrounding punctuation
and whitespace and passed through `string.capwords`. -/
def LlamaCppWrapper.generate_topic_name (text : String) : String :=
  let cs := text.data
  let cs :=
    if cs.contains '\n' then
      ((cs.dropWhile (fun c => c == '\n' || c == ' ')).takeWhile
        (fun c => c ≠ '\n'))
    else cs
  ⟨capwords (pyStripChars (pyPunctuation ++ pyWhitespaceChars) cs)⟩

/-- Embeds `CohereWrapper.generate_topic_name` (source lines 120-141).
On any failure the bare `except:` handler calls
`logger.warn(..., e, prompt, topic_name_info_text)`, but neither `e` nor
`topic_name_info_text` is ever bound in this method (the handler is a
bare `except:` and the text variable is named `topic_name_info_raw`), so
the handler itself raises `NameError`; the `topic_name = ""` fallback on
the line after the logging call is unreachable. -/
def CohereWrapper.generate_topic_name (resp : LlmResponse) :
    Except PyErr Json :=
  match resp with
  | .transportError => Except.error PyErr.nameError
  | .text decoded =>
    match (do
        let topic_name_info ← decoded
        topic_name_info.getItem "topic_name" : Except PyErr Json) with
    | Except.ok topic_name => Except.ok topic_name
    | Except.error _ => Except.error PyErr.nameError

/-- Embeds `AnthropicWrapper.generate_topic_name` (source lines 221-234).
A bare `except:` maps every failure (transport, undecodable text, missing
`"topic_name"` key) to the empty string. -/
def AnthropicWrapper.generate_topic_name (resp : LlmResponse) : Json :=
  match resp with
  | .transportError => Json.str ""
  | .text decoded =>
    match (do
        let topic_name_info ← decoded
        topic_name_info.getItem "topic_name" : Except PyErr Json) with
    | Except.ok topic_name => topic_name
    | Except.error _ => Json.str ""

/-- Embeds `OpenAIWrapper.generate_topic_name` (source lines 294-319).
The handler `except Exception as e` first assigns `topic_name = ""` and
then logs `topic_name_info_text`: when the failure occurred before that
variable was bound (the chat call or the `choices[0].message.content`
access raised), the logging call raises `NameError`; when the text was
bound (decode failure or missing key), the log succeeds and `""` is
returned. -/
def OpenAIWrapper.generate_topic_name (resp : LlmResponse) :
    Except PyErr Json :=
  match resp with
  | .transportError => Except.error PyErr.nameError
  | .text decoded =>
    match (do
        let topic_name_info ← decoded
        topic_name_info.getItem "topic_name" : Except PyErr Json) with
    | Except.ok topic_name => Except.ok topic_name
    | Except.error _ => Except.ok (Json.str "")

/-- One iteration of the cluster-naming loop shared (character for
character) by `LlamaCppWrapper` (lines 78-82), `AnthropicWrapper` (lines
247-251) and `OpenAIWrapper` (lines 333-337):

  if old_name.lower() == list(name_mapping.keys())[0].lower():
      result.append(list(name_mapping.values()[0]))
  else:
      result.append(old_name)

`name_mapping.values()` returns a `dict_values` view; the subscript
`[0]` is applied to the view (the closing parenthesis is misplaced), so
the matched branch always raises `TypeError`. -/
def matchBranchStrict (old_name : String) (name_mapping : Json) :
    Except PyErr Json := do
  let ks ← name_mapping.keys
  let k0 ← listIndex0 ks
  if pyLower old_name = pyLower k0 then do
    let _ ← name_mapping.values
    Except.error PyErr.typeError
  else
    pure (Json.str old_name)

/-- The `for old_name, name_mapping in zip(old_names, topic_name_info)`
loop of the three backends above: items are paired positionally, the
loop stops at the shorter list, and an exception in any iteration aborts
the whole loop. -/
def strictClusterLoop : List String → List Json → Except PyErr (List Json)
  | [], _ => Except.ok []
  | _ :: _, [] => Except.ok []
  | old_name :: olds, name_mapping :: ms => do
    let x ← matchBranchStrict old_name name_mapping
    let rest ← strictClusterLoop olds ms
    pure (x :: rest)

/-- Embeds `generate_topic_cluster_names` for the three backends whose
bodies are identical (`LlamaCppWrapper` lines 72-86, `AnthropicWrapper`
lines 236-255, `OpenAIWrapper` lines 321-341): the whole body sits in a
`try:` whose bare `except:` returns `old_names`, so a transport failure,
undecodable text, non-iterable decoded value, or any exception inside
the loop all yield `old_names` unchanged. -/
def runStrictClusterNames (resp : LlmResponse) (old_names : List String) :
    List Json :=
  match resp with
  | .transportError => old_names.map Json.str
  | .text decoded =>
    match (do
        let topic_name_info ← decoded
        let items ← topic_name_info.pyIter
        strictClusterLoop old_names items : Except PyErr (List Json)) with
    | Except.ok result => result
    | Except.error _ => old_names.map Json.str

/-- `LlamaCppWrapper.generate_topic_cluster_names` (lines 72-86); its
body is character-identical to the Anthropic and OpenAI versions. -/
def LlamaCppWrapper.generate_topic_cluster_names :
    LlmResponse → List String → List Json :=
  runStrictClusterNames

/-- `AnthropicWrapper.generate_topic_cluster_names` (lines 236-255). -/
def AnthropicWrapper.generate_topic_cluster_names :
    LlmResponse → List String → List Json :=
  runStrictClusterNames

/-- `OpenAIWrapper.generate_topic_cluster_names` (lines 321-341). -/
def OpenAIWrapper.generate_topic_cluster_names :
    LlmResponse → List String → List Json :=
  runStrictClusterNames

/-- One iteration of `CohereWrapper.generate_topic_cluster_names`'s loop
(source lines 165-178).  Each iteration has its own try/except: on any
per-item exception only this position falls back to `old_name`.  Both
branches of the `if` append `list(name_mapping.values())[0]` (the else
branch logs a warning — its comment reads `# Use old_name?` — and then
appends the new value anyway), with the parenthesis placed correctly
here, so the first dict value is really extracted. -/
def cohereItem (old_name : String) (name_mapping : Json) : Json :=
  match (do
      let ks ← name_mapping.keys
      let k0 ← listIndex0 ks
      if pyLower old_name = pyLower k0 then do
        let vs ← name_mapping.values
        listIndex0 vs
      else do
        let vs ← name_mapping.values
        listIndex0 vs : Except PyErr Json) with
  | Except.ok v => v
  | Except.error _ => Json.str old_name

/-- The Cohere cluster loop: positional pairing via
`zip(old_names, topic_name_info)`, one `cohereItem` per pair. -/
def cohereClusterLoop : List String → List Json → List Json
  | [], _ => []
  | _ :: _, [] => []
  | old_name :: olds, name_mapping :: ms =>
    cohereItem old_name name_mapping :: cohereClusterLoop olds ms

/-- Embeds `CohereWrapper.generate_topic_cluster_names` (source lines
143-180).  The `try:` covers only the chat call and `json.loads`; its
handler `except Exception as e` logs `topic_name_info_text` before
`return old_names`, so when the failure occurred before that variable
was bound (the chat call or the `.text` access raised) the handler
itself raises `NameError`; a decode failure logs fine and returns
`old_names`.  The loop sits outside the `try:`, so a decoded value that
is not iterable makes `zip` raise `TypeError` uncaught. -/
def CohereWrapper.generate_topic_cluster_names (resp : LlmResponse)
    (old_names : List String) : Except PyErr (List Json) :=
  match resp with
  | .transportError => Except.error PyErr.nameError
  | .text decoded =>
    match decoded with
    | Except.error _ => Except.ok (old_names.map Json.str)
    | Except.ok topic_name_info =>
      match topic_name_info.pyIter with
      | Except.error e => Except.error e
      | Except.ok items => Except.ok (cohereClusterLoop old_names items)

/-!  Helper lemmas about the embedded loops and string cleaning. -/

theorem matchBranchStrict_obj (o k : String) (v : Json) (fs : List (String × Json)) :
    matchBranchStrict o (Json.obj ((k, v) :: fs)) =
      if pyLower o = pyLower k then Except.error PyErr.typeError
      else Except.ok (Json.str o) := by
  by_cases hc : pyLower o = pyLower k
  · simp [matchBranchStrict, Json.keys, listIndex0, Json.values, hc, Bind.bind, Except.bind]
  · simp [matchBranchStrict, Json.keys, listIndex0, Json.values, hc, Bind.bind, Except.bind, pure, Except.pure]

theorem cohereItem_obj (o k : String) (v : Json) (fs : List (String × Json)) :
    cohereItem o (Json.obj ((k, v) :: fs)) = v := by
  by_cases hc : pyLower o = pyLower k <;>
    simp [cohereItem, Json.keys, listIndex0, Json.values, hc, Bind.bind, Except.bind]

theorem cohereItem_not_obj (o : String) (m : Json) (h : m.keys = Except.error PyErr.attributeError) :
    cohereItem o m = Json.str o := by
  simp [cohereItem, h, Bind.bind, Except.bind]

theorem cohereItem_empty_obj (o : String) :
    cohereItem o (Json.obj []) = Json.str o := by
  simp [cohereItem, Json.keys, listIndex0, Bind.bind, Except.bind]

theorem matchBranchStrict_ok (o : String) (m : Json) (x : Json)
    (h : matchBranchStrict o m = Except.ok x) : x = Json.str o := by
  match m with
  | Json.null | Json.bool _ | Json.num _ | Json.str _ | Json.arr _ =>
    simp [matchBranchStrict, Json.keys, Bind.bind, Except.bind] at h
  | Json.obj [] =>
    simp [matchBranchStrict, Json.keys, listIndex0, Bind.bind, Except.bind] at h
  | Json.obj ((k, v) :: fs) =>
    rw [matchBranchStrict_obj] at h
    split at h
    · exact absurd h (by simp)
    · simpa using h.symm

theorem strictClusterLoop_ok_eq : ∀ (olds : List String) (ms : List Json) (r : List Json),
    strictClusterLoop olds ms = Except.ok r →
    r = (olds.zip ms).map (fun p => Json.str p.1)
  | [], ms, r, h => by
    simp [strictClusterLoop] at h; simp [h.symm]
  | o :: olds, [], r, h => by
    simp [strictClusterLoop] at h
    subst h
    simp
  | o :: olds, m :: ms, r, h => by
    simp only [strictClusterLoop, Bind.bind, Except.bind] at h
    cases hm : matchBranchStrict o m with
    | error e => rw [hm] at h; exact absurd h (by simp)
    | ok x =>
      rw [hm] at h
      cases hrest : strictClusterLoop olds ms with
      | error e => rw [hrest] at h; exact absurd h (by simp [pure, Except.pure])
      | ok rest =>
        rw [hrest] at h
        simp [pure, Except.pure] at h
        subst h
        simp [List.zip_cons_cons, matchBranchStrict_ok o m x hm,
          strictClusterLoop_ok_eq olds ms rest hrest]

theorem strictClusterLoop_error_of_mem : ∀ (olds : List String) (ms : List Json)
    (o : String) (m : Json) (err : PyErr),
    (o, m) ∈ olds.zip ms → matchBranchStrict o m = Except.error err →
    ∃ e, strictClusterLoop olds ms = Except.error e
  | [], ms, o, m, err, hmem, _ => by simp at hmem
  | o' :: olds, [], o, m, err, hmem, _ => by simp at hmem
  | o' :: olds, m' :: ms, o, m, err, hmem, herr => by
    simp only [List.zip_cons_cons, List.mem_cons] at hmem
    cases hmem with
    | inl heq =>
      injection heq with h1 h2
      subst h1; subst h2
      exact ⟨err, by simp [strictClusterLoop, Bind.bind, Except.bind, herr]⟩
    | inr htail =>
      cases hm : matchBranchStrict o' m' with
      | error e => exact ⟨e, by simp [strictClusterLoop, Bind.bind, Except.bind, hm]⟩
      | ok x =>
        obtain ⟨e, he⟩ := strictClusterLoop_error_of_mem olds ms o m err htail herr
        exact ⟨e, by simp [strictClusterLoop, Bind.bind, Except.bind, hm, he]⟩

theorem cohereClusterLoop_getElem? : ∀ (olds : List String) (ms : List Json) (i : Nat),
    (cohereClusterLoop olds ms)[i]? =
      olds[i]?.bind fun o => ms[i]?.map fun m => cohereItem o m
  | [], ms, i => by simp [cohereClusterLoop]
  | o :: olds, [], i => by simp [cohereClusterLoop]
  | o :: olds, m :: ms, 0 => by simp [cohereClusterLoop]
  | o :: olds, m :: ms, i + 1 => by
    simp [cohereClusterLoop, cohereClusterLoop_getElem? olds ms i]

theorem cohereClusterLoop_length : ∀ (olds : List String) (ms : List Json),
    (cohereClusterLoop olds ms).length = min olds.length ms.length
  | [], ms => by simp [cohereClusterLoop]
  | o :: olds, [] => by simp [cohereClusterLoop]
  | o :: olds, m :: ms => by
    simp [cohereClusterLoop, cohereClusterLoop_length olds ms, Nat.succ_min_succ]

theorem strictClusterLoop_ok_length (olds : List String) (ms : List Json)
    (r : List Json) (h : strictClusterLoop olds ms = Except.ok r) :
    r.length = min olds.length ms.length := by
  rw [strictClusterLoop_ok_eq olds ms r h]
  simp [List.length_zip]

theorem toNat_charOfNat_of_le (n : Nat) (h : n ≤ 0xd7ff) :
    (Char.ofNat n).toNat = n := by
  have hv : n.isValidChar := Or.inl (by omega)
  rw [Char.ofNat, dif_pos hv]
  rfl

theorem pyUpperChar_ne_newline (c : Char) (h : isPyWhitespace c = false) :
    pyUpperChar c ≠ '\n' := by
  have hc : ¬ c = '\n' := by
    intro he
    subst he
    exact absurd h (by decide)
  unfold pyUpperChar
  split
  · rename_i hr
    intro habs
    have h2 := congrArg Char.toNat habs
    rw [toNat_charOfNat_of_le (c.toNat - 32) (by omega)] at h2
    have h10 : ('\n').toNat = 10 := rfl
    omega
  · exact hc

theorem pyLowerChar_ne_newline (c : Char) (h : isPyWhitespace c = false) :
    pyLowerChar c ≠ '\n' := by
  have hc : ¬ c = '\n' := by
    intro he
    subst he
    exact absurd h (by decide)
  unfold pyLowerChar
  split
  · rename_i hr
    intro habs
    have h2 := congrArg Char.toNat habs
    rw [toNat_charOfNat_of_le (c.toNat + 32) (by omega)] at h2
    have h10 : ('\n').toNat = 10 := rfl
    omega
  · exact hc

theorem mem_pyJoinSpace : ∀ (ws : List (List Char)) (c : Char),
    c ∈ pyJoinSpace ws → c = ' ' ∨ ∃ w, w ∈ ws ∧ c ∈ w
  | [], c, h => by simp [pyJoinSpace] at h
  | [w], c, h => by
    simp only [pyJoinSpace] at h
    exact Or.inr ⟨w, by simp, h⟩
  | w :: v :: ws, c, h => by
    simp only [pyJoinSpace, List.mem_append, List.mem_cons] at h
    rcases h with h | h | h
    · exact Or.inr ⟨w, by simp, h⟩
    · exact Or.inl h
    · rcases mem_pyJoinSpace (v :: ws) c h with h | ⟨u, hu, hc⟩
      · exact Or.inl h
      · exact Or.inr ⟨u, by simp [List.mem_cons] at hu ⊢; tauto, hc⟩

theorem pySplitWsAux_no_ws : ∀ (cs acc : List Char),
    (∀ c, c ∈ acc → isPyWhitespace c = false) →
    ∀ w, w ∈ pySplitWsAux cs acc → ∀ c, c ∈ w → isPyWhitespace c = false
  | [], acc, hacc, w, hw, c, hc => by
    simp only [pySplitWsAux] at hw
    split at hw
    · simp at hw
    · simp at hw
      subst hw
      exact hacc c (by simpa using hc)
  | b :: rest, acc, hacc, w, hw, c, hc => by
    simp only [pySplitWsAux] at hw
    split at hw
    · split at hw
      · exact pySplitWsAux_no_ws rest [] (by simp) w hw c hc
      · rcases List.mem_cons.mp hw with heq | htail
        · subst heq
          exact hacc c (by simpa using hc)
        · exact pySplitWsAux_no_ws rest [] (by simp) w htail c hc
    · rename_i hb
      refine pySplitWsAux_no_ws rest (b :: acc) ?_ w hw c hc
      intro d hd
      rcases List.mem_cons.mp hd with hdb | hda
      · subst hdb
        simpa using hb
      · exact hacc d hda

theorem capwords_no_newline (cs : List Char) : '\n' ∉ capwords cs := by
  intro hmem
  rcases mem_pyJoinSpace _ _ hmem with h | ⟨w, hw, hc⟩
  · exact absurd h (by decide)
  · rcases List.mem_map.mp hw with ⟨w0, hw0, hcap⟩
    have hnws := pySplitWsAux_no_ws cs [] (by simp) w0 hw0
    subst hcap
    match w0, hc with
    | c0 :: rest, hc =>
      rcases List.mem_cons.mp hc with h0 | hr
      · exact pyUpperChar_ne_newline c0 (hnws c0 (by simp)) h0.symm
      · rcases List.mem_map.mp hr with ⟨d, hd, hdl⟩
        exact pyLowerChar_ne_newline d (hnws d (by simp [hd])) hdl

theorem runStrictClusterNames_iter_error (olds : List String) (j : Json) (e : PyErr)
    (h : j.pyIter = Except.error e) :
    runStrictClusterNames (LlmResponse.text (Except.ok j)) olds = olds.map Json.str := by
  simp [runStrictClusterNames, Bind.bind, Except.bind, h]

theorem runStrictClusterNames_iter_ok (olds : List String) (j : Json) (items : List Json)
    (h : j.pyIter = Except.ok items) :
    runStrictClusterNames (LlmResponse.text (Except.ok j)) olds =
      match strictClusterLoop olds items with
      | Except.ok r => r
      | Except.error _ => olds.map Json.str := by
  simp [runStrictClusterNames, Bind.bind, Except.bind, h]

theorem decodedItems_some (resp : LlmResponse) (items : List Json)
    (h : decodedItems resp = some items) :
    ∃ j, resp = LlmResponse.text (Except.ok j) ∧ j.pyIter = Except.ok items := by
  cases resp with
  | transportError => simp [decodedItems] at h
  | text d =>
    cases d with
    | error e => simp [decodedItems] at h
    | ok j =>
      cases hit : j.pyIter with
      | ok its =>
        simp [decodedItems, hit] at h
        exact ⟨j, rfl, by rw [hit, h]⟩
      | error e =>
        simp [decodedItems, hit] at h

theorem runStrict_of_decodedItems_none (resp : LlmResponse) (olds : List String)
    (h : decodedItems resp = none) :
    runStrictClusterNames resp olds = olds.map Json.str := by
  cases resp with
  | transportError => rfl
  | text d =>
    cases d with
    | error e => rfl
    | ok j =>
      cases hit : j.pyIter with
      | ok its => simp [decodedItems, hit] at h
      | error e => exact runStrictClusterNames_iter_error olds j e hit

theorem runStrict_length_le (resp : LlmResponse) (olds : List String) :
    (runStrictClusterNames resp olds).length ≤ olds.length := by
  cases hd : decodedItems resp with
  | none => rw [runStrict_of_decodedItems_none resp olds hd]; simp
  | some items =>
    obtain ⟨j, hj, hit⟩ := decodedItems_some resp items hd
    subst hj
    rw [runStrictClusterNames_iter_ok olds j items hit]
    cases hl : strictClusterLoop olds items with
    | error e => simp
    | ok r => simp [strictClusterLoop_ok_length olds items r hl, Nat.min_le_left]

theorem cohere_cluster_ok_cases (resp : LlmResponse) (olds : List String) (r : List Json)
    (h : CohereWrapper.generate_topic_cluster_names resp olds = Except.ok r) :
    r = olds.map Json.str ∨
    ∃ j items, resp = LlmResponse.text (Except.ok j) ∧ j.pyIter = Except.ok items ∧
      r = cohereClusterLoop olds items := by
  cases resp with
  | transportError => simp [CohereWrapper.generate_topic_cluster_names] at h
  | text d =>
    cases d with
    | error e =>
      simp [CohereWrapper.generate_topic_cluster_names] at h
      exact Or.inl h.symm
    | ok j =>
      cases hit : j.pyIter with
      | error e => simp [CohereWrapper.generate_topic_cluster_names, hit] at h
      | ok items =>
        simp [CohereWrapper.generate_topic_cluster_names, hit] at h
        exact Or.inr ⟨j, items, rfl, hit, h.symm⟩

/-- Claim C1 (corrected): the original claim says the returned list always
has length `len(old_names)`, even when the decoded JSON array has fewer
mappings; in fact the loop runs over `zip(old_names, topic_name_info)`,
which truncates at the shorter list.  Counterexample: two old names, a
decoded array with one non-matching mapping: the result has length 1. -/
theorem C1_cluster_length_counterexample :
    (AnthropicWrapper.generate_topic_cluster_names
        (LlmResponse.text (Except.ok (Json.arr [Json.obj [("Z", Json.str "X")]])))
        ["A", "B"]).length = 1 ∧
    (["A", "B"] : List String).length = 2 := by
  exact ⟨rfl, rfl⟩

/-- Claim C1 (amended): the result length equals `len(old_names)` on every
failure path and whenever the decoded sequence has at least `len(old_names)`
items; in general it is at most `len(old_names)` (for Cohere, on the
non-raising paths). -/
theorem C1_cluster_length_amended :
    (∀ (resp : LlmResponse) (old_names : List String),
        (runStrictClusterNames resp old_names).length ≤ old_names.length)
  ∧ (∀ (resp : LlmResponse) (old_names : List String),
        decodedItems resp = none →
        runStrictClusterNames resp old_names = old_names.map Json.str)
  ∧ (∀ (resp : LlmResponse) (old_names : List String) (items : List Json),
        decodedItems resp = some items → old_names.length ≤ items.length →
        (runStrictClusterNames resp old_names).length = old_names.length)
  ∧ (∀ (resp : LlmResponse) (old_names : List String) (r : List Json),
        CohereWrapper.generate_topic_cluster_names resp old_names = Except.ok r →
        r.length ≤ old_names.length)
  ∧ (∀ (resp : LlmResponse) (old_names : List String) (items : List Json) (r : List Json),
        decodedItems resp = some items → old_names.length ≤ items.length →
        CohereWrapper.generate_topic_cluster_names resp old_names = Except.ok r →
        r.length = old_names.length) := by
  refine ⟨runStrict_length_le, runStrict_of_decodedItems_none, ?_, ?_, ?_⟩
  · intro resp olds items hd hlen
    obtain ⟨j, hj, hit⟩ := decodedItems_some resp items hd
    subst hj
    rw [runStrictClusterNames_iter_ok olds j items hit]
    cases hl : strictClusterLoop olds items with
    | error e => simp
    | ok r =>
      simp [strictClusterLoop_ok_length olds items r hl]
      omega
  · intro resp olds r h
    rcases cohere_cluster_ok_cases resp olds r h with hr | ⟨j, items, hj, hit, hr⟩
    · simp [hr]
    · rw [hr, cohereClusterLoop_length]
      exact Nat.min_le_left _ _
  · intro resp olds items r hd hlen h
    obtain ⟨j, hj, hit⟩ := decodedItems_some resp items hd
    subst hj
    rcases cohere_cluster_ok_cases _ olds r h with hr | ⟨j2, items2, hj2, hit2, hr⟩
    · simp [hr]
    · injection hj2 with hj2
      injection hj2 with hj2
      subst hj2
      rw [hit] at hit2
      injection hit2 with hit2
      subst hit2
      rw [hr, cohereClusterLoop_length]
      omega

/-- Witness for C1 (amended): on a transport failure the old names come
back unchanged; with two decoded items for one old name the result length
is 1. -/
theorem C1_cluster_length_amended_witness :
    runStrictClusterNames LlmResponse.transportError ["A"] = [Json.str "A"] ∧
    (runStrictClusterNames
        (LlmResponse.text (Except.ok (Json.arr
          [Json.obj [("A", Json.str "B")], Json.obj [("C", Json.str "D")]])))
        ["A"]).length = 1 := by
  constructor
  · exact C1_cluster_length_amended.2.1 LlmResponse.transportError ["A"] rfl
  · exact C1_cluster_length_amended.2.2.1
      (LlmResponse.text (Except.ok (Json.arr
        [Json.obj [("A", Json.str "B")], Json.obj [("C", Json.str "D")]])))
      ["A"]
      [Json.obj [("A", Json.str "B")], Json.obj [("C", Json.str "D")]]
      rfl (by decide)

/-- Claim C2 (code bug): the claim says every failure of
`generate_topic_cluster_names` returns `old_names` rather than raising.
The bare-except backends do, and Cohere does on a decode failure; but on
a transport failure Cohere's handler logs `topic_name_info_text`, which
was never bound, so the handler raises `NameError` instead of reaching
its `return old_names`. -/
theorem C2_cluster_failure_behavior :
    CohereWrapper.generate_topic_cluster_names LlmResponse.transportError ["Topic A"]
      = Except.error PyErr.nameError ∧
    CohereWrapper.generate_topic_cluster_names
        (LlmResponse.text (Except.error PyErr.jsonDecodeError)) ["Topic A"]
      = Except.ok [Json.str "Topic A"] ∧
    AnthropicWrapper.generate_topic_cluster_names LlmResponse.transportError ["Topic A"]
      = [Json.str "Topic A"] ∧
    LlamaCppWrapper.generate_topic_cluster_names
        (LlmResponse.text (Except.error PyErr.jsonDecodeError)) ["Topic A"]
      = [Json.str "Topic A"] := by
  exact ⟨rfl, rfl, rfl, rfl⟩

/-- Claim C3 (code bug): the claim says every hosted backend returns `""`
from `generate_topic_name` on any failure.  Anthropic does; OpenAI does
only when the response text was bound before the failure; Cohere's
handler always raises `NameError` (it logs the never-bound names `e` and
`topic_name_info_text`), and OpenAI's raises `NameError` on failures
that occur before its text variable is bound. -/
theorem C3_topic_name_failure_behavior :
    CohereWrapper.generate_topic_name (LlmResponse.text (Except.error PyErr.jsonDecodeError))
      = Except.error PyErr.nameError ∧
    CohereWrapper.generate_topic_name LlmResponse.transportError
      = Except.error PyErr.nameError ∧
    OpenAIWrapper.generate_topic_name LlmResponse.transportError
      = Except.error PyErr.nameError ∧
    OpenAIWrapper.generate_topic_name (LlmResponse.text (Except.error PyErr.jsonDecodeError))
      = Except.ok (Json.str "") ∧
    AnthropicWrapper.generate_topic_name (LlmResponse.text (Except.error PyErr.jsonDecodeError))
      = Json.str "" := by
  exact ⟨rfl, rfl, rfl, rfl, rfl⟩

/-- Claim C4 (code bug): on a well-formed response (one single-key
mapping per old name, keys matching case-insensitively) the claim says
the new names are returned.  Cohere does; in the other three backends the
matched branch evaluates `name_mapping.values()[0]`, which subscripts a
`dict_values` view and raises `TypeError`, so the bare except returns the
old names instead. -/
theorem C4_matching_response_behavior :
    AnthropicWrapper.generate_topic_cluster_names
        (LlmResponse.text (Except.ok (Json.arr [Json.obj [("Topic A", Json.str "New A")]])))
        ["Topic A"] = [Json.str "Topic A"] ∧
    LlamaCppWrapper.generate_topic_cluster_names
        (LlmResponse.text (Except.ok (Json.arr [Json.obj [("Topic A", Json.str "New A")]])))
        ["Topic A"] = [Json.str "Topic A"] ∧
    OpenAIWrapper.generate_topic_cluster_names
        (LlmResponse.text (Except.ok (Json.arr [Json.obj [("Topic A", Json.str "New A")]])))
        ["Topic A"] = [Json.str "Topic A"] ∧
    CohereWrapper.generate_topic_cluster_names
        (LlmResponse.text (Except.ok (Json.arr [Json.obj [("Topic A", Json.str "New A")]])))
        ["Topic A"] = Except.ok [Json.str "New A"] := by
  exact ⟨rfl, rfl, rfl, rfl⟩

/-- Claim C5 (corrected): the claim says every backend validates its
path/model/credential at construction time.  In fact only LlamaCpp (path
check) and Cohere (model lookup) do; the Anthropic and OpenAI
constructors store the key and model without any call, exactly as the
repository's own construction tests assert. -/
theorem C5_construction_counterexample :
    AnthropicWrapper.init "API_KEY" "claude-3-haiku-20240307"
      = Except.ok ⟨"API_KEY", "claude-3-haiku-20240307"⟩ ∧
    OpenAIWrapper.init "API_KEY" "gpt-4o-mini"
      = Except.ok ⟨"API_KEY", "gpt-4o-mini"⟩ := by
  exact ⟨rfl, rfl⟩

/-- Claim C5 (amended): LlamaCpp raises `ValueError` for a nonexistent
model path; Cohere raises `ValueError` for an unknown model and lets the
client's unauthorized error propagate; Anthropic and OpenAI perform no
construction-time validation and never raise. -/
theorem C5_construction_amended :
    (∀ (pathExists : String → Bool) (p : String), pathExists p = false →
        LlamaCppWrapper.init pathExists p = Except.error PyErr.valueError)
  ∧ (∀ (models_get : String → CohereModelsGetResult) (key model : String)
        (avail : List String),
        models_get model = CohereModelsGetResult.notFound avail →
        CohereWrapper.init models_get key model = Except.error PyErr.valueError)
  ∧ (∀ (models_get : String → CohereModelsGetResult) (key model : String),
        models_get model = CohereModelsGetResult.unauthorized →
        CohereWrapper.init models_get key model = Except.error PyErr.unauthorizedError)
  ∧ (∀ key model : String,
        AnthropicWrapper.init key model = Except.ok ⟨key, model⟩)
  ∧ (∀ key model : String,
        OpenAIWrapper.init key model = Except.ok ⟨key, model⟩) := by
  refine ⟨?_, ?_, ?_, fun key model => rfl, fun key model => rfl⟩
  · intro pathExists p h
    simp [LlamaCppWrapper.init, h]
  · intro models_get key model avail h
    simp [CohereWrapper.init, h]
  · intro models_get key model h
    simp [CohereWrapper.init, h]

/-- Witness for C5 (amended): the nonexistent path of the repository's
own test raises `ValueError`; an unauthorized Cohere key raises at
construction. -/
theorem C5_construction_amended_witness :
    LlamaCppWrapper.init (fun _ => false) "non_existent_path"
      = Except.error PyErr.valueError ∧
    CohereWrapper.init (fun _ => CohereModelsGetResult.unauthorized)
        "API_KEY" "command-r-08-2024"
      = Except.error PyErr.unauthorizedError := by
  exact ⟨C5_construction_amended.1 (fun _ => false) "non_existent_path" rfl,
    C5_construction_amended.2.2.1 (fun _ => CohereModelsGetResult.unauthorized)
      "API_KEY" "command-r-08-2024" rfl⟩

/-- Claim C6 (confirmed): on a response decoding to a JSON object with a
`"topic_name"` field, each hosted backend's `generate_topic_name` returns
that field's value. -/
theorem C6_topic_name_success (fields : List (String × Json)) (v : Json)
    (h : Json.getItem (Json.obj fields) "topic_name" = Except.ok v) :
    CohereWrapper.generate_topic_name (LlmResponse.text (Except.ok (Json.obj fields)))
      = Except.ok v ∧
    AnthropicWrapper.generate_topic_name (LlmResponse.text (Except.ok (Json.obj fields)))
      = v ∧
    OpenAIWrapper.generate_topic_name (LlmResponse.text (Except.ok (Json.obj fields)))
      = Except.ok v := by
  refine ⟨?_, ?_, ?_⟩ <;>
    simp [CohereWrapper.generate_topic_name, AnthropicWrapper.generate_topic_name,
      OpenAIWrapper.generate_topic_name, Bind.bind, Except.bind, h]

/-- Witness for C6: the spec's own example response
`{"topic_name": "Neural Networks", "topic_specificity": 0.8}`. -/
theorem C6_topic_name_success_witness :
    CohereWrapper.generate_topic_name (LlmResponse.text (Except.ok (Json.obj
        [("topic_name", Json.str "Neural Networks"),
         ("topic_specificity", Json.num (4 / 5))])))
      = Except.ok (Json.str "Neural Networks") :=
  (C6_topic_name_success
    [("topic_name", Json.str "Neural Networks"),
     ("topic_specificity", Json.num (4 / 5))]
    (Json.str "Neural Networks") rfl).1

/-- Claim C7 (confirmed): in every backend the decoded mappings are
matched positionally (the loop runs over `zip(old_names, mappings)`, so
the i-th mapping meets the i-th old name) and the match test lowercases
both the old name and the mapping's first key.  The characterizations
below display the decision as a function of the lowercased strings, the
Cohere result as a per-position function of the i-th pair, and the
strict loop's completed result as a per-position function of the zip. -/
theorem C7_positional_case_insensitive_matching :
    (∀ (old_name k : String) (v : Json) (fs : List (String × Json)),
        matchBranchStrict old_name (Json.obj ((k, v) :: fs)) =
          if pyLower old_name = pyLower k then Except.error PyErr.typeError
          else Except.ok (Json.str old_name))
  ∧ (∀ (old_name k : String) (v : Json) (fs : List (String × Json)),
        cohereItem old_name (Json.obj ((k, v) :: fs)) = v)
  ∧ (∀ (olds : List String) (ms : List Json) (i : Nat),
        (cohereClusterLoop olds ms)[i]? =
          olds[i]?.bind fun o => ms[i]?.map fun m => cohereItem o m)
  ∧ (∀ (olds : List String) (ms : List Json) (r : List Json),
        strictClusterLoop olds ms = Except.ok r →
        r = (olds.zip ms).map fun p => Json.str p.1) := by
  exact ⟨matchBranchStrict_obj, cohereItem_obj, cohereClusterLoop_getElem?,
    strictClusterLoop_ok_eq⟩

/-- Witness for C7: a completed strict loop over one non-matching pair,
and the match decision firing case-insensitively on "A" vs "a". -/
theorem C7_positional_case_insensitive_matching_witness :
    [Json.str "A"] =
      ((["A"].zip [Json.obj [("Z", Json.str "X")]]).map fun p => Json.str p.1) ∧
    matchBranchStrict "A" (Json.obj [("a", Json.str "B")])
      = Except.error PyErr.typeError := by
  constructor
  · exact C7_positional_case_insensitive_matching.2.2.2
      ["A"] [Json.obj [("Z", Json.str "X")]] [Json.str "A"] rfl
  · rw [C7_positional_case_insensitive_matching.1 "A" "a" (Json.str "B") []]
    rfl

/-- Claim C8 (confirmed): `LlamaCppWrapper.generate_topic_name` has no
try/except and always returns a cleaned form of the backend text: first
line (after stripping leading newlines/spaces) when the text contains a
newline, then surrounding punctuation/whitespace stripped and
`string.capwords` applied, so the returned name never contains a
newline. -/
theorem C8_llamacpp_topic_name_clean :
    (∀ text : String, '\n' ∉ (LlamaCppWrapper.generate_topic_name text).data)
  ∧ LlamaCppWrapper.generate_topic_name "  the QUICK brown\nfox" = "The Quick Brown"
  ∧ LlamaCppWrapper.generate_topic_name "hello, world!  " = "Hello, World" := by
  refine ⟨fun text => capwords_no_newline _, rfl, rfl⟩

/-- Claim C9 (confirmed): in Cohere's cluster naming, a mapping whose key
does not match still contributes its value (not the old name); a
per-item extraction failure replaces only that position with its old
name (the loop is a per-position function of the i-th pair); in the
other backends any per-item exception aborts the whole call, which then
returns all the old names. -/
theorem C9_cohere_partial_success :
    (∀ (old_name k : String) (v : Json) (fs : List (String × Json)),
        pyLower old_name ≠ pyLower k →
        cohereItem old_name (Json.obj ((k, v) :: fs)) = v)
  ∧ (∀ old_name : String, cohereItem old_name (Json.obj []) = Json.str old_name)
  ∧ (∀ (old_name : String) (m : Json),
        m.keys = Except.error PyErr.attributeError →
        cohereItem old_name m = Json.str old_name)
  ∧ (∀ (olds : List String) (ms : List Json) (i : Nat),
        (cohereClusterLoop olds ms)[i]? =
          olds[i]?.bind fun o => ms[i]?.map fun m => cohereItem o m)
  ∧ (∀ (olds : List String) (j : Json) (ms : List Json) (o : String) (m : Json)
        (err : PyErr),
        j.pyIter = Except.ok ms → (o, m) ∈ olds.zip ms →
        matchBranchStrict o m = Except.error err →
        runStrictClusterNames (LlmResponse.text (Except.ok j)) olds
          = olds.map Json.str) := by
  refine ⟨?_, cohereItem_empty_obj, cohereItem_not_obj, cohereClusterLoop_getElem?, ?_⟩
  · intro old_name k v fs _
    exact cohereItem_obj old_name k v fs
  · intro olds j ms o m err hit hmem herr
    obtain ⟨e, he⟩ := strictClusterLoop_error_of_mem olds ms o m err hmem herr
    rw [runStrictClusterNames_iter_ok olds j ms hit, he]

/-- Witness for C9: a mismatching key still yields the new value for
Cohere, while a matching pair makes a strict backend return the old
names. -/
theorem C9_cohere_partial_success_witness :
    cohereItem "A" (Json.obj [("Z", Json.str "X")]) = Json.str "X" ∧
    runStrictClusterNames
        (LlmResponse.text (Except.ok (Json.arr [Json.obj [("A", Json.str "X")]])))
        ["A"] = [Json.str "A"] := by
  constructor
  · exact C9_cohere_partial_success.1 "A" "Z" (Json.str "X") [] (by decide)
  · exact C9_cohere_partial_success.2.2.2.2 ["A"]
      (Json.arr [Json.obj [("A", Json.str "X")]])
      [Json.obj [("A", Json.str "X")]] "A" (Json.obj [("A", Json.str "X")])
      PyErr.typeError rfl (by simp) rfl

/-- Claim C10 (confirmed): the embedded functions are pure (`old_names`
is only read, never written), and on every fallback path the returned
value is exactly the input `old_names`, element for element. -/
theorem C10_failure_returns_old_names :
    (∀ old_names : List String,
        LlamaCppWrapper.generate_topic_cluster_names LlmResponse.transportError old_names
          = old_names.map Json.str)
  ∧ (∀ (old_names : List String) (e : PyErr),
        AnthropicWrapper.generate_topic_cluster_names
            (LlmResponse.text (Except.error e)) old_names
          = old_names.map Json.str)
  ∧ (∀ (old_names : List String) (j : Json) (e : PyErr),
        j.pyIter = Except.error e →
        OpenAIWrapper.generate_topic_cluster_names
            (LlmResponse.text (Except.ok j)) old_names
          = old_names.map Json.str)
  ∧ (∀ (old_names : List String) (j : Json) (items : List Json) (e : PyErr),
        j.pyIter = Except.ok items →
        strictClusterLoop old_names items = Except.error e →
        runStrictClusterNames (LlmResponse.text (Except.ok j)) old_names
          = old_names.map Json.str)
  ∧ (∀ (old_names : List String) (e : PyErr),
        CohereWrapper.generate_topic_cluster_names
            (LlmResponse.text (Except.error e)) old_names
          = Except.ok (old_names.map Json.str)) := by
  refine ⟨fun olds => rfl, fun olds e => rfl, ?_, ?_, fun olds e => rfl⟩
  · intro olds j e h
    exact runStrictClusterNames_iter_error olds j e h
  · intro olds j items e hit hl
    rw [runStrictClusterNames_iter_ok olds j items hit, hl]

/-- Witness for C10: a non-iterable decoded value (a bare number) and a
loop aborted by a matching pair both return the old names unchanged. -/
theorem C10_failure_returns_old_names_witness :
    OpenAIWrapper.generate_topic_cluster_names
        (LlmResponse.text (Except.ok (Json.num 5))) ["A", "B"]
      = [Json.str "A", Json.str "B"] ∧
    runStrictClusterNames
        (LlmResponse.text (Except.ok (Json.arr [Json.obj [("B", Json.str "C")]])))
        ["B"] = [Json.str "B"] := by
  constructor
  · exact C10_failure_returns_old_names.2.2.1 ["A", "B"] (Json.num 5)
      PyErr.typeError rfl
  · exact C10_failure_returns_old_names.2.2.2.1 ["B"]
      (Json.arr [Json.obj [("B", Json.str "C")]])
      [Json.obj [("B", Json.str "C")]] PyErr.typeError rfl rfl
